import Mathlib

/-!
Verification development for the Bot-Trade repository.

Shallow embedding conventions:
* Python floats are modelled as exact rationals (ℚ).
* A pandas DataFrame window is a list of rows; each row carries the raw OHLCV
  columns together with the indicator columns added by `_calculate_indicators`
  (the indicator computation itself — RSI, MACD, Bollinger, EMA, VWAP, ATR —
  is an external collaborator per the spec, so indicator values are free
  fields of the row).
* Fallible pandas operations (`df.iloc[-k]` out of bounds, a missing column
  key) are embedded in the `Except String` monad; a raised exception is an
  `Except.error`.
* `datetime` values are minutes since an epoch midnight (ℕ); one day is
  1440 minutes, and `tomorrow.replace(hour=0, minute=0, ...)` is
  `nextMidnight`.
-/

namespace BotTrade

/-- `df.iloc[-k]` on a window: the k-th row from the end, IndexError when the
window is shorter than k. -/
def ilocBack {α : Type} (w : List α) (k : ℕ) : Except String α :=
  match w.reverse.get? (k - 1) with
  | some r => .ok r
  | none => .error "IndexError: single positional indexer is out-of-bounds"

/-! ## strategies/classic_strategy/proven_strategies.py -/

/-- The `Signal` dataclass of proven_strategies.py. -/
structure Signal where
  decision : String
  confidence : ℚ
  reason : String
deriving DecidableEq

/-- One row of the indicator-annotated window used by `ProvenStrategies`
(only the columns the strategy functions read). -/
structure PRow where
  high : ℚ
  low : ℚ
  close : ℚ
  volume : ℚ
  rsi : ℚ
  macd_histogram : ℚ
  bb_upper : ℚ
  bb_lower : ℚ
  ema_12 : ℚ
  ema_26 : ℚ
  ema_50 : ℚ
  vwap : ℚ
  volume_sma : ℚ
deriving DecidableEq

/-- `ProvenStrategies._bollinger_mean_reversion`.  The source binds
`prev = df.iloc[-2]` and never uses it; the access is kept because it raises
IndexError on windows shorter than 2 bars. -/
def bollinger_mean_reversion (df : List PRow) : Except String Signal := do
  let last ← ilocBack df 1
  let _prev ← ilocBack df 2
  let bb_position := (last.close - last.bb_lower) / (last.bb_upper - last.bb_lower)
  if bb_position < 1/10 ∧ last.rsi < 35 then
    pure ⟨"BUY", 3/4, "Bollinger: Prix oversold + RSI<35 (mean reversion probable)"⟩
  else if bb_position > 9/10 ∧ last.rsi > 65 then
    pure ⟨"SELL", 3/4, "Bollinger: Prix overbought + RSI>65 (mean reversion probable)"⟩
  else
    pure ⟨"HOLD", 1/2, "Bollinger: Prix dans range normal"⟩

/-- `ProvenStrategies._rsi_divergence`. -/
def rsi_divergence (df : List PRow) : Except String Signal := do
  if df.length < 10 then
    pure ⟨"HOLD", 1/2, "RSI: Pas assez de données"⟩
  else do
    let recent := df.drop (df.length - 10)
    let r1 ← ilocBack recent 1
    let r5 ← ilocBack recent 5
    let r10 ← ilocBack recent 10
    if r1.low < r5.low ∧ r5.low < r10.low ∧ r1.rsi > r5.rsi ∧ r5.rsi > r10.rsi ∧
        r1.rsi < 40 then
      pure ⟨"BUY", 17/20, "RSI: Divergence bullish détectée (très fort signal)"⟩
    else if r1.high > r5.high ∧ r5.high > r10.high ∧ r1.rsi < r5.rsi ∧ r5.rsi < r10.rsi ∧
        r1.rsi > 60 then
      pure ⟨"SELL", 17/20, "RSI: Divergence bearish détectée (très fort signal)"⟩
    else if r1.rsi < 30 then
      pure ⟨"BUY", 13/20, "RSI: Oversold classique (< 30)"⟩
    else if r1.rsi > 70 then
      pure ⟨"SELL", 13/20, "RSI: Overbought classique (> 70)"⟩
    else
      pure ⟨"HOLD", 1/2, "RSI: Pas de divergence ni extreme"⟩

/-- `ProvenStrategies._macd_histogram`. -/
def macd_histogram_strategy (df : List PRow) : Except String Signal := do
  if df.length < 3 then
    pure ⟨"HOLD", 1/2, "MACD: Pas assez de données"⟩
  else do
    let last ← ilocBack df 1
    let prev ← ilocBack df 2
    if prev.macd_histogram ≤ 0 ∧ last.macd_histogram > 0 then
      if |last.macd_histogram| > |prev.macd_histogram| then
        pure ⟨"BUY", 7/10, "MACD: Crossover bullish + histogram expansion"⟩
      else
        pure ⟨"HOLD", 1/2, "MACD: Pas de crossover"⟩
    else if prev.macd_histogram ≥ 0 ∧ last.macd_histogram < 0 then
      if |last.macd_histogram| > |prev.macd_histogram| then
        pure ⟨"SELL", 7/10, "MACD: Crossover bearish + histogram expansion"⟩
      else
        pure ⟨"HOLD", 1/2, "MACD: Pas de crossover"⟩
    else
      pure ⟨"HOLD", 1/2, "MACD: Pas de crossover"⟩

/-- `ProvenStrategies._vwap_strategy`.  The source interpolates the numeric
distance into the reason string; the interpolation is elided. -/
def vwap_strategy (df : List PRow) : Except String Signal := do
  let last ← ilocBack df 1
  let distance := (last.close - last.vwap) / last.vwap * 100
  if distance < -(1/2) ∧ last.volume > last.volume_sma * (6/5) then
    pure ⟨"BUY", 4/5, "VWAP: Prix sous VWAP + volume élevé (institutions achètent)"⟩
  else if distance > 1/2 ∧ last.volume > last.volume_sma * (6/5) then
    pure ⟨"SELL", 4/5, "VWAP: Prix sur VWAP + volume élevé (institutions vendent)"⟩
  else
    pure ⟨"HOLD", 1/2, "VWAP: Prix proche de VWAP ou volume faible"⟩

/-- The standing-trend classification at the bottom of
`ProvenStrategies._ema_crossover`, reached whenever no confirmed cross
returned earlier. -/
def ema_trend_check (last : PRow) : Signal :=
  if last.ema_12 > last.ema_26 ∧ last.close > last.ema_50 then
    ⟨"BUY", 11/20, "EMA: Trend bullish établi"⟩
  else if last.ema_12 < last.ema_26 ∧ last.close < last.ema_50 then
    ⟨"SELL", 11/20, "EMA: Trend bearish établi"⟩
  else
    ⟨"HOLD", 1/2, "EMA: Pas de trend clair"⟩

/-- `ProvenStrategies._ema_crossover`. -/
def ema_crossover (df : List PRow) : Except String Signal := do
  if df.length < 3 then
    pure ⟨"HOLD", 1/2, "EMA: Pas assez de données"⟩
  else do
    let last ← ilocBack df 1
    let prev ← ilocBack df 2
    if prev.ema_12 ≤ prev.ema_26 ∧ last.ema_12 > last.ema_26 then
      if last.close > last.ema_50 then
        pure ⟨"BUY", 13/20, "EMA: Golden cross confirmé (trend bullish)"⟩
      else
        pure (ema_trend_check last)
    else if prev.ema_12 ≥ prev.ema_26 ∧ last.ema_12 < last.ema_26 then
      if last.close < last.ema_50 then
        pure ⟨"SELL", 13/20, "EMA: Death cross confirmé (trend bearish)"⟩
      else
        pure (ema_trend_check last)
    else
      pure (ema_trend_check last)

/-- The fixed strategy weights of `ProvenStrategies.analyze`. -/
def weights : List (String × ℚ) :=
  [("bollinger_mean_reversion", 6/5), ("rsi_divergence", 3/2), ("macd_histogram", 1),
   ("vwap", 13/10), ("ema_crossover", 4/5)]

/-- Weight of a strategy by name. -/
def weightOf (k : String) : ℚ :=
  ((weights.find? (fun q => q.1 == k)).map Prod.snd).getD 0

/-- `sum(weights[k] for k, v in signals.items() if v.decision == d)`. -/
def scoreFor (d : String) (sigs : List (String × Signal)) : ℚ :=
  (sigs.map (fun p => if p.2.decision = d then weightOf p.1 else 0)).sum

/-- The signals dict of `ProvenStrategies.analyze`, in source order. -/
def sigList (sb sr sm sv se : Signal) : List (String × Signal) :=
  [("bollinger_mean_reversion", sb), ("rsi_divergence", sr), ("macd_histogram", sm),
   ("vwap", sv), ("ema_crossover", se)]

/-- Market-metric snapshot built from the last row in
`ProvenStrategies.analyze`. -/
structure Metrics where
  price : ℚ
  rsi : ℚ
  macd_histogram : ℚ
  distance_from_vwap : ℚ
  bollinger_position : ℚ
deriving DecidableEq

/-- The decision dict returned by `ProvenStrategies.analyze`, also used (via
dict merge) as the output of `AISignalFilter._filter_signal`. -/
structure TradeSignal where
  decision : String
  confidence : ℚ
  reasons : List String
  signals : List (String × Signal)
  strategy : String
  metrics : Metrics
  ai_filter : Option String
  ai_confidence : Option ℚ
deriving DecidableEq

/-- The weighted-vote block of `ProvenStrategies.analyze`: scores, final
decision, confidence and reasons from the five collected signals. -/
def consensusOf (sigs : List (String × Signal)) (last : PRow) : TradeSignal :=
  let buy_score := scoreFor "BUY" sigs
  let sell_score := scoreFor "SELL" sigs
  let total_weight := (weights.map Prod.snd).sum
  let metrics : Metrics :=
    ⟨last.close, last.rsi, last.macd_histogram,
     (last.close - last.vwap) / last.vwap * 100,
     (last.close - last.bb_lower) / (last.bb_upper - last.bb_lower)⟩
  if buy_score > sell_score ∧ buy_score / total_weight > 1/2 then
    { decision := "BUY", confidence := buy_score / total_weight,
      reasons := ((sigs.filter (fun p => p.2.decision = "BUY")).map (fun p => p.2.reason)),
      signals := sigs, strategy := "PROVEN_PROFESSIONAL", metrics := metrics,
      ai_filter := none, ai_confidence := none }
  else if sell_score > buy_score ∧ sell_score / total_weight > 1/2 then
    { decision := "SELL", confidence := sell_score / total_weight,
      reasons := ((sigs.filter (fun p => p.2.decision = "SELL")).map (fun p => p.2.reason)),
      signals := sigs, strategy := "PROVEN_PROFESSIONAL", metrics := metrics,
      ai_filter := none, ai_confidence := none }
  else
    { decision := "HOLD", confidence := 1/2,
      reasons := ["Pas de consensus clair entre les stratégies"],
      signals := sigs, strategy := "PROVEN_PROFESSIONAL", metrics := metrics,
      ai_filter := none, ai_confidence := none }

/-- `ProvenStrategies.analyze`: run the five strategies and fuse them. -/
def provenAnalyze (df : List PRow) : Except String TradeSignal := do
  let sb ← bollinger_mean_reversion df
  let sr ← rsi_divergence df
  let sm ← macd_histogram_strategy df
  let sv ← vwap_strategy df
  let se ← ema_crossover df
  let last ← ilocBack df 1
  pure (consensusOf (sigList sb sr sm sv se) last)

/-! ## strategies/ai/ai_signal_filter.py -/

/-- `AISignalFilter._filter_signal`, as a function of the classic consensus
signal and the classifier score `prob_good`. -/
def filter_signal (classic : TradeSignal) (prob_good : ℚ) : TradeSignal :=
  if classic.decision = "BUY" then
    if prob_good > 7/10 then
      { classic with
        decision := "BUY",
        confidence := min (classic.confidence * (13/10)) (19/20),
        ai_filter := some "CONFIRMED_STRONG", ai_confidence := some prob_good,
        strategy := "AI_FILTERED_PROVEN" }
    else if prob_good > 11/20 then
      { classic with
        decision := "BUY",
        confidence := classic.confidence * (11/10),
        ai_filter := some "CONFIRMED", ai_confidence := some prob_good,
        strategy := "AI_FILTERED_PROVEN" }
    else
      { classic with
        decision := "HOLD", confidence := 1/2,
        ai_filter := some "REJECTED", ai_confidence := some prob_good,
        strategy := "AI_FILTERED_PROVEN",
        reasons := classic.reasons ++ ["IA: Signal filtré (probabilité faible)"] }
  else if classic.decision = "SELL" then
    if prob_good > 7/10 then
      { classic with
        decision := "SELL",
        confidence := min (classic.confidence * (13/10)) (19/20),
        ai_filter := some "CONFIRMED_STRONG", ai_confidence := some prob_good,
        strategy := "AI_FILTERED_PROVEN" }
    else if prob_good > 11/20 then
      { classic with
        decision := "SELL",
        confidence := classic.confidence * (11/10),
        ai_filter := some "CONFIRMED", ai_confidence := some prob_good,
        strategy := "AI_FILTERED_PROVEN" }
    else
      { classic with
        decision := "HOLD", confidence := 1/2,
        ai_filter := some "REJECTED", ai_confidence := some prob_good,
        strategy := "AI_FILTERED_PROVEN",
        reasons := classic.reasons ++ ["IA: Signal filtré (probabilité faible)"] }
  else
    { classic with
      ai_filter := some "NEUTRAL", ai_confidence := some prob_good,
      strategy := "AI_FILTERED_PROVEN" }

/-- `AISignalFilter.analyze`.  `ai_enabled` is the model-loaded flag set by
`_load_model`; `scorer` is the external classifier boundary
(`_prepare_features` + `model.predict_proba`), whose exception is an
`Except.error`. -/
def aiFilterAnalyze (ai_enabled : Bool)
    (scorer : List PRow → TradeSignal → Except String ℚ)
    (df : List PRow) : Except String TradeSignal := do
  let classic ← provenAnalyze df
  if ai_enabled then
    match scorer df classic with
    | .ok prob_good => pure (filter_signal classic prob_good)
    | .error _ => pure classic
  else
    pure classic

/-! ## strategies/classic_strategy/classic_strategy.py

A row of the window after `ClassicStrategy._calculate_indicators`: base OHLCV
columns plus the indicator columns the method assigns.  Column access goes
through a string lookup (`CRow.col`) so that a misspelled column name raises
KeyError exactly as a pandas lookup does. -/

structure CRow where
  open_price : ℚ
  high : ℚ
  low : ℚ
  close : ℚ
  volume : ℚ
  rsi : ℚ
  macd : ℚ
  macd_signal : ℚ
  sma_20 : ℚ
  ema_12 : ℚ
  ema_26 : ℚ
  bb_upper : ℚ
  bb_lower : ℚ
  volume_sma : ℚ
  volume_ratio : ℚ
deriving DecidableEq

/-- `row[name]` for the columns present after `_calculate_indicators`
("open_price" stands for the source column "open"); any other name is a
KeyError. -/
def CRow.col (r : CRow) (name : String) : Except String ℚ :=
  if name = "open" then .ok r.open_price
  else if name = "high" then .ok r.high
  else if name = "low" then .ok r.low
  else if name = "close" then .ok r.close
  else if name = "volume" then .ok r.volume
  else if name = "rsi" then .ok r.rsi
  else if name = "macd" then .ok r.macd
  else if name = "macd_signal" then .ok r.macd_signal
  else if name = "sma_20" then .ok r.sma_20
  else if name = "ema_12" then .ok r.ema_12
  else if name = "ema_26" then .ok r.ema_26
  else if name = "bb_upper" then .ok r.bb_upper
  else if name = "bb_lower" then .ok r.bb_lower
  else if name = "volume_sma" then .ok r.volume_sma
  else if name = "volume_ratio" then .ok r.volume_ratio
  else .error ("KeyError: " ++ name)

/-- `ClassicStrategy._rsi_strategy`. -/
def rsi_strategy (row : CRow) : Except String String := do
  let rsi ← row.col "rsi"
  if rsi < 30 then pure "BUY"
  else if rsi > 70 then pure "SELL"
  else pure "HOLD"

/-- `ClassicStrategy._macd_strategy`, applied to `df.tail(3)`.  The bullish
branch compares `current[macd] > current[macd]` exactly as the source
does. -/
def macd_strategy (df_tail : List CRow) : Except String String := do
  let current ← ilocBack df_tail 1
  let previous ← ilocBack df_tail 2
  let p_macd ← previous.col "macd"
  let p_sig ← previous.col "macd_signal"
  let c_macd ← current.col "macd"
  if p_macd ≤ p_sig ∧ c_macd > c_macd then pure "BUY"
  else do
    let c_sig ← current.col "macd_signal"
    if p_macd ≥ p_sig ∧ c_macd < c_sig then pure "SELL"
    else pure "HOLD"

/-- `ClassicStrategy._bollinger_strategy`. -/
def bollinger_strategy (row : CRow) : Except String String := do
  let price ← row.col "close"
  let lo ← row.col "bb_lower"
  if price ≤ lo then pure "BUY"
  else do
    let hi ← row.col "bb_upper"
    if price ≥ hi then pure "SELL"
    else pure "HOLD"

/-- `ClassicStrategy._volume_strategy`. -/
def volume_strategy (row : CRow) : Except String String := do
  let vr ← row.col "volume_ratio"
  if vr > 3/2 then do
    let c ← row.col "close"
    let s ← row.col "sma_20"
    if c > s then pure "BUY" else pure "SELL"
  else pure "HOLD"

/-- `ClassicStrategy._trend_strategy`.  The SELL comparison reads the
nonexistent column "ema26" (the defined column is "ema_26"). -/
def trend_strategy (row : CRow) : Except String String := do
  let e12 ← row.col "ema_12"
  let e26 ← row.col "ema_26"
  if e12 > e26 then pure "BUY"
  else do
    let e12b ← row.col "ema_12"
    let e26b ← row.col "ema26"
    if e12b < e26b then pure "SELL"
    else pure "HOLD"

/-- The decision dict returned by `ClassicStrategy.analyze` (and, with the
same fields, by `AIStrategy._combine_signals`). -/
structure ClassicOut where
  decision : String
  confidence : ℚ
  signals : List (String × String)
  metrics : List (String × ℚ)
deriving DecidableEq

/-- `ClassicStrategy.analyze`. -/
def classicAnalyze (df : List CRow) : Except String ClassicOut := do
  let last_row ← ilocBack df 1
  let signal_rsi ← rsi_strategy last_row
  let signal_macd ← macd_strategy (df.drop (df.length - 3))
  let signal_bb ← bollinger_strategy last_row
  let signal_volume ← volume_strategy last_row
  let signal_trend ← trend_strategy last_row
  let signals := [("rsi", signal_rsi), ("macd", signal_macd), ("bollinger", signal_bb),
                  ("volume", signal_volume), ("trend", signal_trend)]
  let buy_votes := (signals.filter (fun p => p.2 == "BUY")).length
  let sell_votes := (signals.filter (fun p => p.2 == "SELL")).length
  let metrics := [("rsi", last_row.rsi), ("macd", last_row.macd),
                  ("price", last_row.close), ("volume_ratio", last_row.volume_ratio)]
  if buy_votes ≥ 3 then
    pure ⟨"BUY", (buy_votes : ℚ) / 5, signals, metrics⟩
  else if sell_votes ≥ 3 then
    pure ⟨"SELL", (sell_votes : ℚ) / 5, signals, metrics⟩
  else
    pure ⟨"HOLD", 1/2, signals, metrics⟩

/-! ## strategies/ai/ai_strategy.py -/

/-- The `{decision, confidence}` dict returned by `AIStrategy._ai_predict`. -/
structure AIPred where
  decision : String
  confidence : ℚ
deriving DecidableEq

/-- `AIStrategy._combine_signals`. -/
def combine_signals (classic : ClassicOut) (ai : AIPred) : ClassicOut :=
  if classic.decision = ai.decision then
    { classic with confidence := min (classic.confidence + 3/20) (19/20) }
  else if ai.confidence > 4/5 ∧ classic.confidence < 13/20 then
    { classic with decision := ai.decision, confidence := 7/10 }
  else
    { classic with decision := "HOLD", confidence := 1/2 }

/-- `AIStrategy.analyze`.  `ai_enabled` is the ONNX-model-loaded flag;
`predictor` is the external model boundary (`_prepare_features` +
`model.run`), whose exception is an `Except.error`.  The classic analysis
runs outside the try/except, so its exceptions propagate. -/
def aiStrategyAnalyze (ai_enabled : Bool)
    (predictor : List CRow → Except String AIPred)
    (df : List CRow) : Except String ClassicOut := do
  let classic ← classicAnalyze df
  if ai_enabled then
    match predictor df with
    | .ok p => pure (combine_signals classic p)
    | .error _ => pure classic
  else
    pure classic

/-! ## strategies/bot_trade_auto/trading_bot.py -/

/-- One day in minutes. -/
def dayMinutes : ℕ := 1440

/-- `(datetime.now() + timedelta(days=1)).replace(hour=0, minute=0, second=0,
microsecond=0)` with times in minutes since an epoch midnight. -/
def nextMidnight (now : ℕ) : ℕ := (now / dayMinutes + 1) * dayMinutes

/-- State of `DailyCircuitBreaker`.  `daily_start_balance = none` models the
initial Python `None` (and the `some 0` case is kept distinct because
`if self.daily_start_balance:` is also false for 0). -/
structure Breaker where
  max_daily_loss_percent : ℚ
  daily_start_balance : Option ℚ
  current_balance : ℚ
  is_paused : Bool
  pause_until : Option ℕ
  consecutive_losses : ℕ
deriving DecidableEq

/-- `DailyCircuitBreaker.check_can_trade`: returns the updated breaker and
whether trading is allowed (the human-readable message is dropped). -/
def check_can_trade (now : ℕ) (b : Breaker) : Breaker × Bool :=
  let b1 := match b.pause_until with
    | some pu =>
        if pu ≤ now then
          { b with is_paused := false, pause_until := none, consecutive_losses := 0 }
        else b
    | none => b
  if b1.is_paused then (b1, false)
  else
    match b1.daily_start_balance with
    | some ds =>
        if ds = 0 then (b1, true)
        else
          let daily_loss := (ds - b1.current_balance) / ds * 100
          if daily_loss ≥ b1.max_daily_loss_percent then
            ({ b1 with pause_until := some (nextMidnight now), is_paused := true }, false)
          else (b1, true)
    | none => (b1, true)

/-- `DailyCircuitBreaker.update_balance`. -/
def update_balance (b : Breaker) (new_balance : ℚ) (was_win : Bool) : Breaker :=
  { b with current_balance := new_balance,
           consecutive_losses := if was_win then 0 else b.consecutive_losses + 1 }

/-- `DailyCircuitBreaker.start_day`. -/
def start_day (b : Breaker) (balance : ℚ) : Breaker :=
  { b with daily_start_balance := some balance, current_balance := balance,
           is_paused := false, pause_until := none }

/-- A `self.positions[symbol]` entry of `TradingBot` (the stored signal dict
is represented by its confidence). -/
structure PositionRec where
  amount : ℚ
  entry_price : ℚ
  stop_loss : ℚ
  take_profit : ℚ
  entry_time : ℕ
  sig_confidence : ℚ
deriving DecidableEq

/-- The configuration fields of `TradingBot` that the trading cycle reads. -/
structure BotConfig where
  initial_balance : ℚ
  max_daily_loss_percent : ℚ
  position_size_percent : ℚ
  stop_loss_percent : ℚ
  take_profit_percent : ℚ
  min_confidence : ℚ
  max_positions : ℕ
  symbol : String
deriving DecidableEq

/-- Mutable state of `TradingBot`: balance, the positions dict (an
association list with the dict's insertion order), trade/win/loss counters
and the circuit breaker. -/
structure BotState where
  balance : ℚ
  positions : List (String × PositionRec)
  breaker : Breaker
  total_trades : ℕ
  winning_trades : ℕ
  losing_trades : ℕ
deriving DecidableEq

/-- Dict lookup (`positions[symbol]`, `symbol in positions`). -/
def dictLookup {α : Type} (l : List (String × α)) (k : String) : Option α :=
  (l.find? (fun p => p.1 == k)).map Prod.snd

/-- Dict assignment `positions[symbol] = v`: replace in place, else append. -/
def dictInsert {α : Type} (l : List (String × α)) (k : String) (v : α) :
    List (String × α) :=
  if l.any (fun p => p.1 == k) then
    l.map (fun p => if p.1 == k then (k, v) else p)
  else l ++ [(k, v)]

/-- Dict deletion `del positions[symbol]`. -/
def dictErase {α : Type} (l : List (String × α)) (k : String) : List (String × α) :=
  l.filter (fun p => ¬(p.1 == k))

/-- `TradingBot.open_position` (prints and the dry-run flag elided). -/
def open_position (cfg : BotConfig) (now : ℕ) (st : BotState) (symbol : String)
    (sig_conf : ℚ) (price : ℚ) : BotState :=
  let value := st.balance * (cfg.position_size_percent / 100)
  let amount := value / price
  let stop_loss := price * (1 - cfg.stop_loss_percent / 100)
  let take_profit := price * (1 + cfg.take_profit_percent / 100)
  { st with
    positions := dictInsert st.positions symbol
      ⟨amount, price, stop_loss, take_profit, now, sig_conf⟩,
    balance := st.balance - value,
    total_trades := st.total_trades + 1 }

/-- `TradingBot.close_position`. -/
def close_position (st : BotState) (symbol : String) (price : ℚ) : BotState :=
  match dictLookup st.positions symbol with
  | none => st
  | some pos =>
    let entry_value := pos.amount * pos.entry_price
    let exit_value := pos.amount * price
    let pnl := exit_value - entry_value
    let balance1 := st.balance + exit_value
    { st with
      balance := balance1,
      winning_trades := if pnl > 0 then st.winning_trades + 1 else st.winning_trades,
      losing_trades := if pnl > 0 then st.losing_trades else st.losing_trades + 1,
      breaker := update_balance st.breaker balance1 (decide (pnl > 0)),
      positions := dictErase st.positions symbol }

/-- `TradingBot.check_positions`: walk a snapshot of the position keys,
closing on stop-loss breach first, then take-profit breach. -/
def check_positions (st : BotState) (price : ℚ) : BotState :=
  (st.positions.map Prod.fst).foldl (fun s symbol =>
    match dictLookup s.positions symbol with
    | none => s
    | some pos =>
      if price ≤ pos.stop_loss then close_position s symbol price
      else if price ≥ pos.take_profit then close_position s symbol price
      else s) st

/-- The entry/exit decision block at the end of `TradingBot.run_trading_cycle`
(lines 400-409): open on a confident BUY only when no position is already
open for the symbol, close on a SELL against an open position. -/
def tradeDecision (cfg : BotConfig) (now : ℕ) (st : BotState) (sig : TradeSignal)
    (price : ℚ) : BotState :=
  if sig.decision = "BUY" ∧ sig.confidence ≥ cfg.min_confidence then
    if dictLookup st.positions cfg.symbol = none then
      open_position cfg now st cfg.symbol sig.confidence price
    else st
  else if sig.decision = "SELL" ∧ (dictLookup st.positions cfg.symbol).isSome then
    close_position st cfg.symbol price
  else st

/-- `TradingBot.run_trading_cycle`.  The fetched market data and the signal
computed from it are inputs: `none` models a failed fetch (the cycle
returns unchanged), `some (price, sig)` carries the last close and the
strategy decision for the window. -/
def run_trading_cycle (cfg : BotConfig) (now : ℕ)
    (market : Option (ℚ × TradeSignal)) (st : BotState) : BotState :=
  match market with
  | none => st
  | some (price, sig) =>
    let st1 := check_positions st price
    let cbr := check_can_trade now st1.breaker
    let st2 := { st1 with breaker := cbr.1 }
    if cbr.2 then
      if st2.positions.length ≥ cfg.max_positions then st2
      else tradeDecision cfg now st2 sig price
    else st2

/-- The bot state after `TradingBot.__init__` and the `start_day` call at the
top of `TradingBot.run`. -/
def initState (cfg : BotConfig) : BotState :=
  { balance := cfg.initial_balance,
    positions := [],
    breaker := start_day
      ⟨cfg.max_daily_loss_percent, none, 0, false, none, 0⟩ cfg.initial_balance,
    total_trades := 0, winning_trades := 0, losing_trades := 0 }

/-- States of the trading loop: the initial state and everything the cycle
can produce from a reachable state, for any cycle time and market input. -/
inductive Reachable (cfg : BotConfig) : BotState → Prop
  | init : Reachable cfg (initState cfg)
  | step {st : BotState} (h : Reachable cfg st) (now : ℕ)
      (market : Option (ℚ × TradeSignal)) :
      Reachable cfg (run_trading_cycle cfg now market st)

/-! ## Theorems -/

/-- C3 (amended): for every breaker state with a started day whose daily loss
fraction has reached the configured maximum, `check_can_trade` returns false
and leaves the breaker paused; and whenever the breaker is not already in an
unexpired pause, it also sets `pause_until` to the next midnight. -/
theorem c3_daily_loss_pause (b : Breaker) (now : ℕ) (ds : ℚ)
    (hds : b.daily_start_balance = some ds) (hpos : 0 < ds)
    (hloss : (ds - b.current_balance) / ds * 100 ≥ b.max_daily_loss_percent) :
    (check_can_trade now b).2 = false ∧ (check_can_trade now b).1.is_paused = true ∧
    ((b.is_paused = false ∨ ∃ pu, b.pause_until = some pu ∧ pu ≤ now) →
      (check_can_trade now b).1.pause_until = some (nextMidnight now)) := by
  have hne : ds ≠ 0 := ne_of_gt hpos
  have hloss' : b.max_daily_loss_percent ≤ (ds - b.current_balance) / ds * 100 := hloss
  rcases hbp : b.pause_until with _ | pu
  · rcases hip : b.is_paused
    · simp [check_can_trade, hbp, hip, hds, hne, hloss']
    · refine ⟨by simp [check_can_trade, hbp, hip], by simp [check_can_trade, hbp, hip], ?_⟩
      rintro (h | ⟨pu, hpu, _⟩)
      · exact absurd h (by simp)
      · exact Option.noConfusion hpu
  · by_cases hle : pu ≤ now
    · simp [check_can_trade, hbp, hle, hds, hne, hloss']
    · rcases hip : b.is_paused
      · simp [check_can_trade, hbp, hle, hip, hds, hne, hloss']
      · refine ⟨by simp [check_can_trade, hbp, hle, hip],
          by simp [check_can_trade, hbp, hle, hip], ?_⟩
        rintro (h | ⟨pu', hpu', hle'⟩)
        · exact absurd h (by simp)
        · injection hpu' with h2
          subst h2
          exact absurd hle' hle

/-- A breaker state with a started day (10000), an 11% daily loss, already
paused with `pause_until` two midnights away, queried at time 0. -/
def c3cexBreaker : Breaker :=
  ⟨10, some 10000, 8900, true, some 2880, 0⟩

/-- C3 (counterexample): at an already-paused state whose `pause_until` is not
the next midnight, `check_can_trade` does return false but does not set
`pause_until` to the next midnight, refuting the claim's universal
quantification over every state with a started day. -/
theorem c3_counterexample :
    c3cexBreaker.daily_start_balance = some 10000 ∧
    (10000 - c3cexBreaker.current_balance) / 10000 * 100 ≥
      c3cexBreaker.max_daily_loss_percent ∧
    (check_can_trade 0 c3cexBreaker).2 = false ∧
    ¬((check_can_trade 0 c3cexBreaker).1.pause_until = some (nextMidnight 0)) := by
  refine ⟨rfl, by norm_num [c3cexBreaker], rfl, ?_⟩
  intro h
  rw [show (check_can_trade 0 c3cexBreaker).1.pause_until = some 2880 from rfl] at h
  simp [nextMidnight, dayMinutes] at h

/-- An unpaused breaker state with a started day of 10000 and current balance
8900 (an 11% loss) against a 10% maximum. -/
def c3wBreaker : Breaker :=
  ⟨10, some 10000, 8900, false, none, 0⟩

/-- C3 (witness): the spec's concrete instance — day start 10000, current
8900, max 10% — is refused, paused, with pause_until the next midnight. -/
theorem c3_pause_witness :
    (0 : ℚ) < 10000 ∧
    (10000 - c3wBreaker.current_balance) / 10000 * 100 ≥
      c3wBreaker.max_daily_loss_percent ∧
    (check_can_trade 100 c3wBreaker).2 = false ∧
    (check_can_trade 100 c3wBreaker).1.is_paused = true ∧
    (check_can_trade 100 c3wBreaker).1.pause_until = some (nextMidnight 100) := by
  have h := c3_daily_loss_pause c3wBreaker 100 10000 rfl (by norm_num)
    (by norm_num [c3wBreaker])
  exact ⟨by norm_num, by norm_num [c3wBreaker], h.1, h.2.1, h.2.2 (Or.inl rfl)⟩

/-- C8 (amended): a `check_can_trade` call at or after `pause_until` clears
the pause and resets `consecutive_losses` to zero, but it permits trading
(returns true) only when the daily-loss threshold is no longer met against the
unchanged `daily_start_balance`; when the loss condition still holds, the
breaker immediately re-pauses until the next midnight and returns false. -/
theorem c8_resume (b : Breaker) (now : ℕ) (pu : ℕ)
    (_hp : b.is_paused = true) (hpu : b.pause_until = some pu) (hnow : pu ≤ now) :
    (check_can_trade now b).1.consecutive_losses = 0 ∧
    (∀ ds : ℚ, b.daily_start_balance = some ds → ds ≠ 0 →
      ((ds - b.current_balance) / ds * 100 < b.max_daily_loss_percent →
        (check_can_trade now b).2 = true ∧
        (check_can_trade now b).1.is_paused = false ∧
        (check_can_trade now b).1.pause_until = none) ∧
      ((ds - b.current_balance) / ds * 100 ≥ b.max_daily_loss_percent →
        (check_can_trade now b).2 = false ∧
        (check_can_trade now b).1.is_paused = true ∧
        (check_can_trade now b).1.pause_until = some (nextMidnight now))) ∧
    (b.daily_start_balance = none →
      (check_can_trade now b).2 = true ∧
      (check_can_trade now b).1.is_paused = false) := by
  refine ⟨?_, fun ds hds hne => ⟨fun hlt => ?_, fun hge => ?_⟩, fun hds => ?_⟩
  · simp only [check_can_trade, hpu, if_pos hnow]
    rcases hds : b.daily_start_balance with _ | ds
    · simp
    · by_cases h0 : ds = 0
      · simp [h0]
      · simp [h0]
        split_ifs <;> rfl
  · have hnlt : ¬(b.max_daily_loss_percent ≤ (ds - b.current_balance) / ds * 100) :=
      not_le.mpr hlt
    simp [check_can_trade, hpu, hnow, hds, hne, hnlt]
  · have hge' : b.max_daily_loss_percent ≤ (ds - b.current_balance) / ds * 100 := hge
    simp [check_can_trade, hpu, hnow, hds, hne, hge']
  · simp [check_can_trade, hpu, hnow, hds]

/-- A paused breaker whose pause has expired at time 1500 but whose stale
daily loss (10000 → 8900, 11%) still exceeds the 10% maximum. -/
def c8cexBreaker : Breaker :=
  ⟨10, some 10000, 8900, true, some 1440, 5⟩

/-- C8 (counterexample): the claim says a check at `now ≥ pause_until` permits
trading again with no other precondition; here the check returns false (the
stale daily-loss condition immediately re-pauses the breaker). -/
theorem c8_counterexample :
    c8cexBreaker.is_paused = true ∧ c8cexBreaker.pause_until = some 1440 ∧
    1440 ≤ 1500 ∧ (check_can_trade 1500 c8cexBreaker).2 = false ∧
    (check_can_trade 1500 c8cexBreaker).1.is_paused = true := by
  refine ⟨rfl, rfl, by norm_num, ?_, ?_⟩ <;>
    norm_num [check_can_trade, c8cexBreaker, nextMidnight, dayMinutes]

/-- A paused breaker whose pause has expired at time 1500 and whose daily
loss (1%) is below the 10% maximum. -/
def c8wBreaker : Breaker :=
  ⟨10, some 10000, 9900, true, some 1440, 7⟩

/-- C8 (witness): when the pause has expired and the loss condition no longer
holds, the breaker unpauses, resets consecutive_losses and permits trading. -/
theorem c8_resume_witness :
    c8wBreaker.is_paused = true ∧ c8wBreaker.pause_until = some 1440 ∧
    (1440 : ℕ) ≤ 1500 ∧
    (check_can_trade 1500 c8wBreaker).1.consecutive_losses = 0 ∧
    (check_can_trade 1500 c8wBreaker).2 = true ∧
    (check_can_trade 1500 c8wBreaker).1.is_paused = false := by
  have h := c8_resume c8wBreaker 1500 1440 rfl rfl (by norm_num)
  have h2 := (h.2.1 10000 rfl (by norm_num)).1 (by norm_num [c8wBreaker])
  exact ⟨rfl, rfl, by norm_num, h.1, h2.1, h2.2.1⟩

/-- C9: the bullish branch of `ClassicStrategy._macd_strategy` compares the
current MACD value to itself, so no window ever yields BUY. -/
theorem c9_macd_never_buy (w : List CRow) : macd_strategy w ≠ Except.ok "BUY" := by
  intro h
  unfold macd_strategy at h
  rcases h1 : ilocBack w 1 with e | current
  · rw [h1] at h
    simp [Bind.bind, Except.bind] at h
  · rcases h2 : ilocBack w 2 with e | previous
    · rw [h1, h2] at h
      simp [Bind.bind, Except.bind] at h
    · rw [h1, h2] at h
      simp only [Bind.bind, Except.bind] at h
      simp [CRow.col] at h
      split_ifs at h <;> simp [pure, Except.pure] at h

/-- C9 (witness): on a concrete two-row window the MACD rule does not BUY. -/
theorem c9_macd_never_buy_witness :
    macd_strategy [⟨1,1,1,1,1,1,1,1,1,1,1,1,1,1,1⟩, ⟨1,1,1,1,1,1,1,1,1,1,1,1,1,1,1⟩]
      ≠ Except.ok "BUY" :=
  c9_macd_never_buy _

/-- C4: Policy A (`AISignalFilter._filter_signal`) on a non-HOLD consensus
decision keeps it with confidence min(conf×1.3, 0.95) and tag
CONFIRMED_STRONG when prob_good > 0.70; keeps it with confidence conf×1.1 and
tag CONFIRMED when 0.55 < prob_good ≤ 0.70; overrides to HOLD at confidence
0.5 with tag REJECTED and an appended rejection reason when
prob_good ≤ 0.55; and a HOLD consensus passes through with tag NEUTRAL. -/
theorem c4_policy_a (classic : TradeSignal) (p : ℚ) :
    ((classic.decision = "BUY" ∨ classic.decision = "SELL") → p > 7/10 →
      filter_signal classic p = { classic with
        confidence := min (classic.confidence * (13/10)) (19/20),
        ai_filter := some "CONFIRMED_STRONG", ai_confidence := some p,
        strategy := "AI_FILTERED_PROVEN" }) ∧
    ((classic.decision = "BUY" ∨ classic.decision = "SELL") → 11/20 < p → p ≤ 7/10 →
      filter_signal classic p = { classic with
        confidence := classic.confidence * (11/10),
        ai_filter := some "CONFIRMED", ai_confidence := some p,
        strategy := "AI_FILTERED_PROVEN" }) ∧
    ((classic.decision = "BUY" ∨ classic.decision = "SELL") → p ≤ 11/20 →
      filter_signal classic p = { classic with
        decision := "HOLD", confidence := 1/2,
        ai_filter := some "REJECTED", ai_confidence := some p,
        strategy := "AI_FILTERED_PROVEN",
        reasons := classic.reasons ++ ["IA: Signal filtré (probabilité faible)"] }) ∧
    (classic.decision = "HOLD" →
      filter_signal classic p = { classic with
        ai_filter := some "NEUTRAL", ai_confidence := some p,
        strategy := "AI_FILTERED_PROVEN" }) := by
  obtain ⟨d, conf, rs, sg, st, mt, af, ac⟩ := classic
  refine ⟨fun hbs hgt => ?_, fun hbs h1 h2 => ?_, fun hbs hle => ?_, fun hh => ?_⟩
  · rcases hbs with hb | hb <;> dsimp only at hb <;> subst hb <;> simp [filter_signal, hgt]
  · have hn : ¬(7/10 < p) := not_lt.mpr h2
    rcases hbs with hb | hb <;> dsimp only at hb <;> subst hb <;> simp [filter_signal, h1, hn]
  · have hn1 : ¬(7/10 < p) := not_lt.mpr (le_trans hle (by norm_num))
    have hn2 : ¬(11/20 < p) := not_lt.mpr hle
    rcases hbs with hb | hb <;> dsimp only at hb <;> subst hb <;> simp [filter_signal, hn1, hn2]
  · dsimp only at hh; subst hh; simp [filter_signal]

/-- The spec's Policy A instance: a BUY consensus at confidence 0.60. -/
def c4wSignal : TradeSignal :=
  ⟨"BUY", 3/5, ["r"], [], "PROVEN_PROFESSIONAL", ⟨0, 0, 0, 0, 0⟩, none, none⟩

/-- C4 (witness): prob_good = 0.75 on a BUY consensus at confidence 0.60
yields confidence 0.78 = min(0.60×1.3, 0.95) with tag CONFIRMED_STRONG. -/
theorem c4_policy_a_witness :
    ((3:ℚ)/4 > 7/10) ∧
    (filter_signal c4wSignal (3/4)).decision = "BUY" ∧
    (filter_signal c4wSignal (3/4)).confidence = 39/50 ∧
    (filter_signal c4wSignal (3/4)).ai_filter = some "CONFIRMED_STRONG" := by
  have h := (c4_policy_a c4wSignal (3/4)).1 (Or.inl rfl) (by norm_num)
  refine ⟨by norm_num, ?_, ?_, ?_⟩ <;> rw [h] <;>
    norm_num [c4wSignal, min_def]

/-- The buy/sell score of the five named strategy signals, written out. -/
theorem scoreFor_sigList (d : String) (sb sr sm sv se : Signal) :
    scoreFor d (sigList sb sr sm sv se) =
      (if sb.decision = d then (6:ℚ)/5 else 0) + (if sr.decision = d then 3/2 else 0) +
      (if sm.decision = d then 1 else 0) + (if sv.decision = d then 13/10 else 0) +
      (if se.decision = d then 4/5 else 0) := by
  simp [scoreFor, sigList, weightOf, weights]
  ring

/-- C1: `ProvenStrategies.analyze` scores each side as the sum of the fixed
weights (mean-reversion 1.2, divergence 1.5, momentum-histogram 1.0, VWAP
1.3, trend-crossover 0.8; total 5.8) of the strategies voting that side;
the fused decision is BUY exactly when buy_score > sell_score and
buy_score/5.8 > 0.5 (SELL symmetric), otherwise HOLD; confidence is
winning_score/5.8 on a BUY or SELL and the fixed 0.50 on HOLD; and an exact
buy/sell score tie yields HOLD. -/
theorem c1_consensus_fusion (sb sr sm sv se : Signal) (last : PRow) :
    scoreFor "BUY" (sigList sb sr sm sv se) =
      (if sb.decision = "BUY" then (6:ℚ)/5 else 0) +
      (if sr.decision = "BUY" then 3/2 else 0) +
      (if sm.decision = "BUY" then 1 else 0) +
      (if sv.decision = "BUY" then 13/10 else 0) +
      (if se.decision = "BUY" then 4/5 else 0) ∧
    scoreFor "SELL" (sigList sb sr sm sv se) =
      (if sb.decision = "SELL" then (6:ℚ)/5 else 0) +
      (if sr.decision = "SELL" then 3/2 else 0) +
      (if sm.decision = "SELL" then 1 else 0) +
      (if sv.decision = "SELL" then 13/10 else 0) +
      (if se.decision = "SELL" then 4/5 else 0) ∧
    (weights.map Prod.snd).sum = 29/5 ∧
    ((consensusOf (sigList sb sr sm sv se) last).decision = "BUY" ↔
      scoreFor "SELL" (sigList sb sr sm sv se) < scoreFor "BUY" (sigList sb sr sm sv se) ∧
      1/2 < scoreFor "BUY" (sigList sb sr sm sv se) / (29/5)) ∧
    ((consensusOf (sigList sb sr sm sv se) last).decision = "SELL" ↔
      scoreFor "BUY" (sigList sb sr sm sv se) < scoreFor "SELL" (sigList sb sr sm sv se) ∧
      1/2 < scoreFor "SELL" (sigList sb sr sm sv se) / (29/5)) ∧
    ((consensusOf (sigList sb sr sm sv se) last).decision = "BUY" →
      (consensusOf (sigList sb sr sm sv se) last).confidence =
        scoreFor "BUY" (sigList sb sr sm sv se) / (29/5)) ∧
    ((consensusOf (sigList sb sr sm sv se) last).decision = "SELL" →
      (consensusOf (sigList sb sr sm sv se) last).confidence =
        scoreFor "SELL" (sigList sb sr sm sv se) / (29/5)) ∧
    ((consensusOf (sigList sb sr sm sv se) last).decision = "HOLD" →
      (consensusOf (sigList sb sr sm sv se) last).confidence = 1/2) ∧
    (scoreFor "BUY" (sigList sb sr sm sv se) = scoreFor "SELL" (sigList sb sr sm sv se) →
      (consensusOf (sigList sb sr sm sv se) last).decision = "HOLD") := by
  have ht : (weights.map Prod.snd).sum = (29:ℚ)/5 := by norm_num [weights]
  refine ⟨scoreFor_sigList _ sb sr sm sv se, scoreFor_sigList _ sb sr sm sv se, ht, ?_⟩
  by_cases hA : scoreFor "SELL" (sigList sb sr sm sv se) <
      scoreFor "BUY" (sigList sb sr sm sv se) ∧
      1/2 < scoreFor "BUY" (sigList sb sr sm sv se) / (29/5)
  · have hd : consensusOf (sigList sb sr sm sv se) last =
        { decision := "BUY",
          confidence := scoreFor "BUY" (sigList sb sr sm sv se) / (29/5),
          reasons := (((sigList sb sr sm sv se).filter
            (fun p => p.2.decision = "BUY")).map (fun p => p.2.reason)),
          signals := sigList sb sr sm sv se, strategy := "PROVEN_PROFESSIONAL",
          metrics := ⟨last.close, last.rsi, last.macd_histogram,
            (last.close - last.vwap) / last.vwap * 100,
            (last.close - last.bb_lower) / (last.bb_upper - last.bb_lower)⟩,
          ai_filter := none, ai_confidence := none } := by
      simp only [consensusOf, ht]
      rw [if_pos hA]
    rw [hd]
    exact ⟨iff_of_true rfl hA, iff_of_false (by simp) (fun hc => (asymm hc.1) hA.1),
      fun _ => rfl, fun hc => absurd hc (by simp), fun hc => absurd hc (by simp),
      fun he => absurd (he ▸ hA.1) (lt_irrefl _)⟩
  · by_cases hB : scoreFor "BUY" (sigList sb sr sm sv se) <
        scoreFor "SELL" (sigList sb sr sm sv se) ∧
        1/2 < scoreFor "SELL" (sigList sb sr sm sv se) / (29/5)
    · have hd : consensusOf (sigList sb sr sm sv se) last =
          { decision := "SELL",
            confidence := scoreFor "SELL" (sigList sb sr sm sv se) / (29/5),
            reasons := (((sigList sb sr sm sv se).filter
              (fun p => p.2.decision = "SELL")).map (fun p => p.2.reason)),
            signals := sigList sb sr sm sv se, strategy := "PROVEN_PROFESSIONAL",
            metrics := ⟨last.close, last.rsi, last.macd_histogram,
              (last.close - last.vwap) / last.vwap * 100,
              (last.close - last.bb_lower) / (last.bb_upper - last.bb_lower)⟩,
            ai_filter := none, ai_confidence := none } := by
        simp only [consensusOf, ht]
        rw [if_neg hA, if_pos hB]
      rw [hd]
      exact ⟨iff_of_false (by simp) (fun hc => (asymm hc.1) hB.1), iff_of_true rfl hB,
        fun hc => absurd hc (by simp), fun _ => rfl, fun hc => absurd hc (by simp),
        fun he => absurd (he ▸ hB.1) (lt_irrefl _)⟩
    · have hd : consensusOf (sigList sb sr sm sv se) last =
          { decision := "HOLD", confidence := 1/2,
            reasons := ["Pas de consensus clair entre les stratégies"],
            signals := sigList sb sr sm sv se, strategy := "PROVEN_PROFESSIONAL",
            metrics := ⟨last.close, last.rsi, last.macd_histogram,
              (last.close - last.vwap) / last.vwap * 100,
              (last.close - last.bb_lower) / (last.bb_upper - last.bb_lower)⟩,
            ai_filter := none, ai_confidence := none } := by
        simp only [consensusOf, ht]
        rw [if_neg hA, if_neg hB]
      rw [hd]
      exact ⟨iff_of_false (by simp) hA, iff_of_false (by simp) hB,
        fun hc => absurd hc (by simp), fun hc => absurd hc (by simp),
        fun _ => rfl, fun _ => rfl⟩

/-- A concrete all-BUY signal assignment for the consensus. -/
def allBuySignals : List (String × Signal) :=
  sigList ⟨"BUY", 3/4, "b"⟩ ⟨"BUY", 17/20, "r"⟩ ⟨"BUY", 7/10, "m"⟩
    ⟨"BUY", 4/5, "v"⟩ ⟨"BUY", 13/20, "e"⟩

/-- A concrete last row for building consensus outputs. -/
def lastRowW : PRow := ⟨50, 10, 5, 100, 20, 1, 100, 0, 3, 2, 4, 10, 10⟩

/-- C1 (witness): with all five strategies voting BUY the fused decision is
BUY at confidence 5.8/5.8 = 1, derived through the fusion theorem. -/
theorem c1_consensus_fusion_witness :
    (consensusOf allBuySignals lastRowW).decision = "BUY" ∧
    (consensusOf allBuySignals lastRowW).confidence = 1 := by
  have h := c1_consensus_fusion ⟨"BUY", 3/4, "b"⟩ ⟨"BUY", 17/20, "r"⟩ ⟨"BUY", 7/10, "m"⟩
    ⟨"BUY", 4/5, "v"⟩ ⟨"BUY", 13/20, "e"⟩ lastRowW
  have hdec := (h.2.2.2.1).mpr
    ⟨by rw [h.1, h.2.1]; simp; norm_num, by rw [h.1]; simp; norm_num⟩
  have hc := h.2.2.2.2.2.1 hdec
  rw [h.1] at hc
  norm_num at hc
  exact ⟨hdec, hc⟩

/-- C7 (amended): every consensus decision is in {BUY, SELL, HOLD} with
confidence in [0,1]; the filter-adjusted decision is also in {BUY, SELL,
HOLD} and its confidence lies in [0, 1.1], exceeding 1 only when the
CONFIRMED branch (conf×1.1 uncapped) fires on a consensus confidence above
10/11 — which happens exactly when all five strategies agree (confidence
1). -/
theorem c7_decision_confidence_bounds (sb sr sm sv se : Signal) (last : PRow) (p : ℚ) :
    (consensusOf (sigList sb sr sm sv se) last).decision ∈
      (["BUY", "SELL", "HOLD"] : List String) ∧
    0 ≤ (consensusOf (sigList sb sr sm sv se) last).confidence ∧
    (consensusOf (sigList sb sr sm sv se) last).confidence ≤ 1 ∧
    (filter_signal (consensusOf (sigList sb sr sm sv se) last) p).decision ∈
      (["BUY", "SELL", "HOLD"] : List String) ∧
    0 ≤ (filter_signal (consensusOf (sigList sb sr sm sv se) last) p).confidence ∧
    (filter_signal (consensusOf (sigList sb sr sm sv se) last) p).confidence ≤ 11/10 ∧
    ((filter_signal (consensusOf (sigList sb sr sm sv se) last) p).confidence ≤ 1 ∨
      10/11 < (consensusOf (sigList sb sr sm sv se) last).confidence) := by
  have hscore : ∀ d, 0 ≤ scoreFor d (sigList sb sr sm sv se) ∧
      scoreFor d (sigList sb sr sm sv se) ≤ 29/5 := by
    intro d
    rw [scoreFor_sigList]
    constructor <;> split_ifs <;> norm_num
  have ht : (weights.map Prod.snd).sum = (29:ℚ)/5 := by norm_num [weights]
  have hcase : ((consensusOf (sigList sb sr sm sv se) last).decision = "BUY" ∧
        (consensusOf (sigList sb sr sm sv se) last).confidence =
          scoreFor "BUY" (sigList sb sr sm sv se) / (weights.map Prod.snd).sum) ∨
      ((consensusOf (sigList sb sr sm sv se) last).decision = "SELL" ∧
        (consensusOf (sigList sb sr sm sv se) last).confidence =
          scoreFor "SELL" (sigList sb sr sm sv se) / (weights.map Prod.snd).sum) ∨
      ((consensusOf (sigList sb sr sm sv se) last).decision = "HOLD" ∧
        (consensusOf (sigList sb sr sm sv se) last).confidence = 1/2) := by
    simp only [consensusOf]
    split_ifs
    · exact Or.inl ⟨rfl, rfl⟩
    · exact Or.inr (Or.inl ⟨rfl, rfl⟩)
    · exact Or.inr (Or.inr ⟨rfl, rfl⟩)
  have hbounds : 0 ≤ (consensusOf (sigList sb sr sm sv se) last).confidence ∧
      (consensusOf (sigList sb sr sm sv se) last).confidence ≤ 1 := by
    rcases hcase with ⟨-, hc⟩ | ⟨-, hc⟩ | ⟨-, hc⟩ <;> rw [hc] <;> try rw [ht]
    · exact ⟨div_nonneg (hscore "BUY").1 (by norm_num),
        (div_le_one (by norm_num)).mpr (hscore "BUY").2⟩
    · exact ⟨div_nonneg (hscore "SELL").1 (by norm_num),
        (div_le_one (by norm_num)).mpr (hscore "SELL").2⟩
    · norm_num
  have hmem : (consensusOf (sigList sb sr sm sv se) last).decision ∈
      (["BUY", "SELL", "HOLD"] : List String) := by
    rcases hcase with ⟨hd, -⟩ | ⟨hd, -⟩ | ⟨hd, -⟩ <;> simp [hd]
  have hfil : ∀ c : TradeSignal, c.decision ∈ (["BUY", "SELL", "HOLD"] : List String) →
      0 ≤ c.confidence → c.confidence ≤ 1 →
      (filter_signal c p).decision ∈ (["BUY", "SELL", "HOLD"] : List String) ∧
      0 ≤ (filter_signal c p).confidence ∧
      (filter_signal c p).confidence ≤ 11/10 ∧
      ((filter_signal c p).confidence ≤ 1 ∨ 10/11 < c.confidence) := by
    intro c hcmem hc0 hc1
    unfold filter_signal
    split_ifs
    · refine ⟨by simp, le_min (mul_nonneg hc0 (by norm_num)) (by norm_num), ?_, ?_⟩
      · exact (min_le_right _ _).trans (by norm_num)
      · exact Or.inl ((min_le_right _ _).trans (by norm_num))
    · refine ⟨by simp, mul_nonneg hc0 (by norm_num), by nlinarith, ?_⟩
      by_cases hcc : c.confidence ≤ 10/11
      · exact Or.inl (by nlinarith)
      · exact Or.inr (not_le.mp hcc)
    · exact ⟨by simp, by norm_num, by norm_num, Or.inl (by norm_num)⟩
    · refine ⟨by simp, le_min (mul_nonneg hc0 (by norm_num)) (by norm_num), ?_, ?_⟩
      · exact (min_le_right _ _).trans (by norm_num)
      · exact Or.inl ((min_le_right _ _).trans (by norm_num))
    · refine ⟨by simp, mul_nonneg hc0 (by norm_num), by nlinarith, ?_⟩
      by_cases hcc : c.confidence ≤ 10/11
      · exact Or.inl (by nlinarith)
      · exact Or.inr (not_le.mp hcc)
    · exact ⟨by simp, by norm_num, by norm_num, Or.inl (by norm_num)⟩
    · exact ⟨hcmem, hc0, hc1.trans (by norm_num), Or.inl hc1⟩
  obtain ⟨hf1, hf2, hf3, hf4⟩ :=
    hfil (consensusOf (sigList sb sr sm sv se) last) hmem hbounds.1 hbounds.2
  exact ⟨hmem, hbounds.1, hbounds.2, hf1, hf2, hf3, hf4⟩

/-- A 10-bar indicator-annotated window on which all five strategies vote
BUY: bullish RSI divergence (lows 30, 20, 10 with RSI 10, 15, 20), price in
the bottom decile of the Bollinger band with RSI 20, a fresh MACD-histogram
crossover 0 → 1, price 50% below VWAP on 10× average volume, and a fresh
EMA12/EMA26 golden cross above EMA50. -/
def c7Window : List PRow :=
  [⟨1, 30, 1, 1, 10, 1, 1, 0, 1, 1, 1, 1, 1⟩,
   ⟨1, 28, 1, 1, 11, 1, 1, 0, 1, 1, 1, 1, 1⟩,
   ⟨1, 27, 1, 1, 12, 1, 1, 0, 1, 1, 1, 1, 1⟩,
   ⟨1, 26, 1, 1, 13, 1, 1, 0, 1, 1, 1, 1, 1⟩,
   ⟨1, 25, 1, 1, 14, 1, 1, 0, 1, 1, 1, 1, 1⟩,
   ⟨1, 20, 1, 1, 15, 1, 1, 0, 1, 1, 1, 1, 1⟩,
   ⟨1, 18, 1, 1, 16, 1, 1, 0, 1, 1, 1, 1, 1⟩,
   ⟨1, 16, 1, 1, 17, 1, 1, 0, 1, 1, 1, 1, 1⟩,
   ⟨1, 15, 1, 1, 18, 0, 1, 0, 1, 2, 1, 1, 1⟩,
   ⟨50, 10, 5, 100, 20, 1, 100, 0, 3, 2, 4, 10, 10⟩]

/-- C7 (counterexample): the system emits a decision with confidence 1.1 > 1:
on `c7Window` all five strategies vote BUY, the consensus confidence is
5.8/5.8 = 1, and the filter's CONFIRMED branch (prob_good = 0.6) multiplies
it by 1.1 with no cap. -/
theorem c7_counterexample :
    (aiFilterAnalyze true (fun _ _ => Except.ok (3/5)) c7Window).map
      (fun o => o.confidence) = Except.ok (11/10) ∧
    ¬((11:ℚ)/10 ≤ 1) := by
  have hb : bollinger_mean_reversion c7Window = Except.ok
      ⟨"BUY", 3/4, "Bollinger: Prix oversold + RSI<35 (mean reversion probable)"⟩ := by
    norm_num [bollinger_mean_reversion, ilocBack, c7Window, Bind.bind, Except.bind,
      pure, Except.pure]
  have hr : rsi_divergence c7Window = Except.ok
      ⟨"BUY", 17/20, "RSI: Divergence bullish détectée (très fort signal)"⟩ := by
    norm_num [rsi_divergence, ilocBack, c7Window, Bind.bind, Except.bind,
      pure, Except.pure]
  have hm : macd_histogram_strategy c7Window = Except.ok
      ⟨"BUY", 7/10, "MACD: Crossover bullish + histogram expansion"⟩ := by
    norm_num [macd_histogram_strategy, ilocBack, c7Window, Bind.bind, Except.bind,
      pure, Except.pure]
  have hv : vwap_strategy c7Window = Except.ok
      ⟨"BUY", 4/5, "VWAP: Prix sous VWAP + volume élevé (institutions achètent)"⟩ := by
    norm_num [vwap_strategy, ilocBack, c7Window, Bind.bind, Except.bind,
      pure, Except.pure]
  have he : ema_crossover c7Window = Except.ok
      ⟨"BUY", 13/20, "EMA: Golden cross confirmé (trend bullish)"⟩ := by
    norm_num [ema_crossover, ilocBack, c7Window, Bind.bind, Except.bind,
      pure, Except.pure]
  have hlast : ilocBack c7Window 1 = Except.ok ⟨50, 10, 5, 100, 20, 1, 100, 0, 3, 2, 4, 10, 10⟩ := by
    norm_num [ilocBack, c7Window]
  have hcons : provenAnalyze c7Window = Except.ok
      (consensusOf (sigList
        ⟨"BUY", 3/4, "Bollinger: Prix oversold + RSI<35 (mean reversion probable)"⟩
        ⟨"BUY", 17/20, "RSI: Divergence bullish détectée (très fort signal)"⟩
        ⟨"BUY", 7/10, "MACD: Crossover bullish + histogram expansion"⟩
        ⟨"BUY", 4/5, "VWAP: Prix sous VWAP + volume élevé (institutions achètent)"⟩
        ⟨"BUY", 13/20, "EMA: Golden cross confirmé (trend bullish)"⟩)
        ⟨50, 10, 5, 100, 20, 1, 100, 0, 3, 2, 4, 10, 10⟩) := by
    simp [provenAnalyze, hb, hr, hm, hv, he, hlast, Bind.bind, Except.bind,
      pure, Except.pure]
  have hout : (consensusOf (sigList
        ⟨"BUY", 3/4, "Bollinger: Prix oversold + RSI<35 (mean reversion probable)"⟩
        ⟨"BUY", 17/20, "RSI: Divergence bullish détectée (très fort signal)"⟩
        ⟨"BUY", 7/10, "MACD: Crossover bullish + histogram expansion"⟩
        ⟨"BUY", 4/5, "VWAP: Prix sous VWAP + volume élevé (institutions achètent)"⟩
        ⟨"BUY", 13/20, "EMA: Golden cross confirmé (trend bullish)"⟩)
        ⟨50, 10, 5, 100, 20, 1, 100, 0, 3, 2, 4, 10, 10⟩).decision = "BUY" ∧
      (consensusOf (sigList
        ⟨"BUY", 3/4, "Bollinger: Prix oversold + RSI<35 (mean reversion probable)"⟩
        ⟨"BUY", 17/20, "RSI: Divergence bullish détectée (très fort signal)"⟩
        ⟨"BUY", 7/10, "MACD: Crossover bullish + histogram expansion"⟩
        ⟨"BUY", 4/5, "VWAP: Prix sous VWAP + volume élevé (institutions achètent)"⟩
        ⟨"BUY", 13/20, "EMA: Golden cross confirmé (trend bullish)"⟩)
        ⟨50, 10, 5, 100, 20, 1, 100, 0, 3, 2, 4, 10, 10⟩).confidence = 1 := by
    constructor <;> simp only [consensusOf, scoreFor_sigList] <;>
      simp [weights] <;> norm_num
  obtain ⟨hod, hoc⟩ := hout
  have hfs : ∀ c : TradeSignal, c.decision = "BUY" → c.confidence = 1 →
      (filter_signal c (3/5)).confidence = 11/10 := by
    intro c hd hc
    unfold filter_signal
    rw [if_pos hd, if_neg (by norm_num), if_pos (by norm_num)]
    simp [hc]
  constructor
  · simp [aiFilterAnalyze, hcons, Bind.bind, Except.bind, pure, Except.pure, Except.map,
      hfs _ hod hoc]
  · norm_num

/-- Whether an embedded call raised (an `Except.error`). -/
def isErr {α : Type} (x : Except String α) : Bool :=
  match x with
  | .error _ => true
  | .ok _ => false

/-- C6: both learned-filter policies fail open — with the model absent
(`ai_enabled = false`) or the per-cycle inference raising, each `analyze`
returns exactly the unmodified consensus/classic decision for that cycle. -/
theorem c6_fail_open (dfP : List PRow) (dfC : List CRow)
    (scorer : List PRow → TradeSignal → Except String ℚ)
    (predictor : List CRow → Except String AIPred) :
    (aiFilterAnalyze false scorer dfP = provenAnalyze dfP) ∧
    ((∀ c, isErr (scorer dfP c) = true) →
      aiFilterAnalyze true scorer dfP = provenAnalyze dfP) ∧
    (aiStrategyAnalyze false predictor dfC = classicAnalyze dfC) ∧
    (isErr (predictor dfC) = true →
      aiStrategyAnalyze true predictor dfC = classicAnalyze dfC) := by
  refine ⟨?_, fun hs => ?_, ?_, fun hp => ?_⟩
  · cases h : provenAnalyze dfP <;>
      simp [aiFilterAnalyze, h, Bind.bind, Except.bind, pure, Except.pure]
  · cases h : provenAnalyze dfP with
    | error e => simp [aiFilterAnalyze, h, Bind.bind, Except.bind]
    | ok c =>
      have := hs c
      cases hsc : scorer dfP c with
      | error e =>
        simp [aiFilterAnalyze, h, hsc, Bind.bind, Except.bind, pure, Except.pure]
      | ok q => rw [hsc] at this; simp [isErr] at this
  · cases h : classicAnalyze dfC <;>
      simp [aiStrategyAnalyze, h, Bind.bind, Except.bind, pure, Except.pure]
  · cases h : classicAnalyze dfC with
    | error e => simp [aiStrategyAnalyze, h, Bind.bind, Except.bind]
    | ok c =>
      cases hpc : predictor dfC with
      | error e =>
        simp [aiStrategyAnalyze, h, hpc, Bind.bind, Except.bind, pure, Except.pure]
      | ok q => rw [hpc] at hp; simp [isErr] at hp

/-- C6 (witness): with an always-raising scorer/predictor, both analyzers
return exactly the unfiltered result on concrete windows. -/
theorem c6_fail_open_witness :
    (∀ c : TradeSignal,
      isErr ((fun (_ : List PRow) (_ : TradeSignal) =>
        (Except.error "inference failed" : Except String ℚ)) c7Window c) = true) ∧
    aiFilterAnalyze true (fun _ _ => Except.error "inference failed") c7Window =
      provenAnalyze c7Window ∧
    aiStrategyAnalyze true (fun _ => Except.error "inference failed") [] =
      classicAnalyze ([] : List CRow) := by
  have h := c6_fail_open c7Window ([] : List CRow)
    (fun _ _ => Except.error "inference failed") (fun _ => Except.error "inference failed")
  exact ⟨fun c => rfl, h.2.1 (fun c => rfl), h.2.2.2 rfl⟩

/-- A single indicator-annotated bar. -/
def c5Row : PRow := ⟨1, 1, 1, 1, 1, 1, 1, 0, 1, 1, 1, 1, 1⟩

/-- C5 (code_bug): on a one-bar window the divergence, momentum and trend
modules return HOLD at 0.50 as the spec says and the VWAP module succeeds,
but `_bollinger_mean_reversion` raises IndexError through its unused
`prev = df.iloc[-2]`, so `ProvenStrategies.analyze` raises instead of
holding. -/
theorem c5_short_window_error :
    rsi_divergence [c5Row] = Except.ok ⟨"HOLD", 1/2, "RSI: Pas assez de données"⟩ ∧
    macd_histogram_strategy [c5Row] =
      Except.ok ⟨"HOLD", 1/2, "MACD: Pas assez de données"⟩ ∧
    ema_crossover [c5Row] = Except.ok ⟨"HOLD", 1/2, "EMA: Pas assez de données"⟩ ∧
    vwap_strategy [c5Row] =
      Except.ok ⟨"HOLD", 1/2, "VWAP: Prix proche de VWAP ou volume faible"⟩ ∧
    bollinger_mean_reversion [c5Row] =
      Except.error "IndexError: single positional indexer is out-of-bounds" ∧
    provenAnalyze [c5Row] =
      Except.error "IndexError: single positional indexer is out-of-bounds" := by
  refine ⟨rfl, rfl, rfl, ?_, rfl, rfl⟩
  norm_num [vwap_strategy, ilocBack, c5Row, Bind.bind, Except.bind, pure, Except.pure]

/-- `df.iloc[-k]` succeeds whenever the window has at least k rows. -/
theorem ilocBack_isOk {α : Type} (w : List α) (k : ℕ) (h1 : 1 ≤ k)
    (h2 : k ≤ w.length) : ∃ r, ilocBack w k = Except.ok r := by
  unfold ilocBack
  have hlt : k - 1 < w.reverse.length := by
    rw [List.length_reverse]; omega
  rw [List.get?_eq_get hlt]
  exact ⟨_, rfl⟩

/-- `_rsi_strategy` reads only defined columns, so it never raises. -/
theorem rsi_strategy_isOk (r : CRow) : ∃ s, rsi_strategy r = Except.ok s := by
  unfold rsi_strategy
  simp [CRow.col, Bind.bind, Except.bind]
  split_ifs <;> exact ⟨_, rfl⟩

/-- `_bollinger_strategy` reads only defined columns, so it never raises. -/
theorem bollinger_strategy_isOk (r : CRow) : ∃ s, bollinger_strategy r = Except.ok s := by
  unfold bollinger_strategy
  simp [CRow.col, Bind.bind, Except.bind]
  split_ifs <;> exact ⟨_, rfl⟩

/-- `_volume_strategy` reads only defined columns, so it never raises. -/
theorem volume_strategy_isOk (r : CRow) : ∃ s, volume_strategy r = Except.ok s := by
  unfold volume_strategy
  simp [CRow.col, Bind.bind, Except.bind]
  split_ifs <;> exact ⟨_, rfl⟩

/-- `_macd_strategy` on a window of at least two rows reads only defined
columns, so it never raises. -/
theorem macd_strategy_isOk (w : List CRow) (h2 : 2 ≤ w.length) :
    ∃ s, macd_strategy w = Except.ok s := by
  obtain ⟨cur, hcur⟩ := ilocBack_isOk w 1 (by norm_num) (by omega)
  obtain ⟨prev, hprev⟩ := ilocBack_isOk w 2 (by norm_num) h2
  unfold macd_strategy
  rw [hcur, hprev]
  simp [CRow.col, Bind.bind, Except.bind]
  split_ifs <;> exact ⟨_, rfl⟩

/-- `_trend_strategy` raises KeyError on the misspelled column "ema26"
whenever the BUY comparison fails. -/
theorem trend_strategy_keyerror (r : CRow) (h : ¬(r.ema_12 > r.ema_26)) :
    trend_strategy r = Except.error "KeyError: ema26" := by
  unfold trend_strategy
  simp [CRow.col, Bind.bind, Except.bind, if_neg h]

/-- C10: for every window of at least two rows whose latest row does not have
ema_12 strictly above ema_26, `_trend_strategy` reads the nonexistent column
"ema26" and raises KeyError, so `ClassicStrategy.analyze` — and
`AIStrategy.analyze`, which calls it outside its exception handler, for any
model state — fails with that KeyError instead of producing a decision. -/
theorem c10_trend_keyerror (w : List CRow) (last : CRow) (hlen : 2 ≤ w.length)
    (hlast : ilocBack w 1 = Except.ok last) (hema : ¬(last.ema_12 > last.ema_26)) :
    trend_strategy last = Except.error "KeyError: ema26" ∧
    classicAnalyze w = Except.error "KeyError: ema26" ∧
    ∀ (ai_enabled : Bool) (predictor : List CRow → Except String AIPred),
      aiStrategyAnalyze ai_enabled predictor w = Except.error "KeyError: ema26" := by
  have htrend := trend_strategy_keyerror last hema
  have hclassic : classicAnalyze w = Except.error "KeyError: ema26" := by
    obtain ⟨s1, h1⟩ := rsi_strategy_isOk last
    obtain ⟨s2, h2⟩ := macd_strategy_isOk (w.drop (w.length - 3)) (by
      rw [List.length_drop]; omega)
    obtain ⟨s3, h3⟩ := bollinger_strategy_isOk last
    obtain ⟨s4, h4⟩ := volume_strategy_isOk last
    unfold classicAnalyze
    rw [hlast]
    simp [Bind.bind, Except.bind, h1, h2, h3, h4, htrend]
  refine ⟨htrend, hclassic, fun ai_enabled predictor => ?_⟩
  unfold aiStrategyAnalyze
  rw [hclassic]
  simp [Bind.bind, Except.bind]

/-- A two-row window whose latest row has ema_12 = 1 ≤ ema_26 = 2. -/
def c10Window : List CRow :=
  [⟨1, 1, 1, 1, 1, 50, 1, 1, 1, 3, 2, 2, 0, 1, 1⟩,
   ⟨1, 1, 1, 1, 1, 50, 1, 1, 1, 1, 2, 2, 0, 1, 1⟩]

/-- C10 (witness): on a concrete two-bar downtrending window, the classic
analysis and the AI strategy (with a working predictor) both raise the
"ema26" KeyError. -/
theorem c10_trend_keyerror_witness :
    (2 ≤ c10Window.length) ∧
    ¬((1:ℚ) > 2) ∧
    classicAnalyze c10Window = Except.error "KeyError: ema26" ∧
    aiStrategyAnalyze true (fun _ => Except.ok ⟨"BUY", 1⟩) c10Window =
      Except.error "KeyError: ema26" := by
  have h := c10_trend_keyerror c10Window ⟨1, 1, 1, 1, 1, 50, 1, 1, 1, 1, 2, 2, 0, 1, 1⟩
    (by norm_num [c10Window]) rfl (by norm_num)
  exact ⟨by norm_num [c10Window], by norm_num, h.2.1,
    h.2.2 true (fun _ => Except.ok ⟨"BUY", 1⟩)⟩

/-- Dict assignment keeps the keys duplicate-free. -/
theorem dictInsert_keys_nodup {α : Type} (l : List (String × α)) (k : String) (v : α)
    (h : (l.map Prod.fst).Nodup) : ((dictInsert l k v).map Prod.fst).Nodup := by
  unfold dictInsert
  split_ifs with hany
  · have hmap : (l.map (fun p => if p.1 == k then (k, v) else p)).map Prod.fst =
        l.map Prod.fst := by
      rw [List.map_map]
      refine List.map_congr_left (fun p _ => ?_)
      by_cases hb : p.1 = k
      · simp [hb]
      · simp [hb]
    rw [hmap]
    exact h
  · rw [List.map_append]
    refine List.Nodup.append h (List.nodup_singleton k) ?_
    intro a ha hmem
    rcases List.mem_map.mp ha with ⟨p, hp, hpa⟩
    have hak : a = k := by simpa using hmem
    exact hany (List.any_eq_true.mpr ⟨p, hp, by simp [hpa, hak]⟩)

/-- Dict deletion keeps the keys duplicate-free. -/
theorem dictErase_keys_nodup {α : Type} (l : List (String × α)) (k : String)
    (h : (l.map Prod.fst).Nodup) : ((dictErase l k).map Prod.fst).Nodup :=
  h.sublist ((List.filter_sublist l).map Prod.fst)

/-- `open_position` keeps the position keys duplicate-free. -/
theorem open_position_nodup (cfg : BotConfig) (now : ℕ) (st : BotState)
    (symbol : String) (sig_conf price : ℚ)
    (h : (st.positions.map Prod.fst).Nodup) :
    (((open_position cfg now st symbol sig_conf price).positions).map Prod.fst).Nodup :=
  dictInsert_keys_nodup _ _ _ h

/-- `close_position` keeps the position keys duplicate-free. -/
theorem close_position_nodup (st : BotState) (symbol : String) (price : ℚ)
    (h : (st.positions.map Prod.fst).Nodup) :
    (((close_position st symbol price).positions).map Prod.fst).Nodup := by
  unfold close_position
  cases dictLookup st.positions symbol with
  | none => exact h
  | some pos => exact dictErase_keys_nodup _ _ h

/-- `check_positions` keeps the position keys duplicate-free. -/
theorem check_positions_nodup (st : BotState) (price : ℚ)
    (h : (st.positions.map Prod.fst).Nodup) :
    (((check_positions st price).positions).map Prod.fst).Nodup := by
  unfold check_positions
  generalize st.positions.map Prod.fst = keys
  induction keys generalizing st with
  | nil => simpa using h
  | cons a as ih =>
    simp only [List.foldl_cons]
    apply ih
    cases hl : dictLookup st.positions a with
    | none => simpa [hl] using h
    | some pos =>
      simp only [hl]
      split_ifs <;> first
        | exact close_position_nodup st a price h
        | exact h

/-- The entry/exit decision step keeps the position keys duplicate-free. -/
theorem tradeDecision_nodup (cfg : BotConfig) (now : ℕ) (st : BotState)
    (sig : TradeSignal) (price : ℚ) (h : (st.positions.map Prod.fst).Nodup) :
    (((tradeDecision cfg now st sig price).positions).map Prod.fst).Nodup := by
  unfold tradeDecision
  split_ifs <;> first
    | exact open_position_nodup cfg now st cfg.symbol sig.confidence price h
    | exact close_position_nodup st cfg.symbol price h
    | exact h

/-- One trading cycle keeps the position keys duplicate-free. -/
theorem run_trading_cycle_nodup (cfg : BotConfig) (now : ℕ)
    (market : Option (ℚ × TradeSignal)) (st : BotState)
    (h : (st.positions.map Prod.fst).Nodup) :
    (((run_trading_cycle cfg now market st).positions).map Prod.fst).Nodup := by
  unfold run_trading_cycle
  cases market with
  | none => exact h
  | some pm =>
    obtain ⟨price, sig⟩ := pm
    have h1 := check_positions_nodup st price h
    dsimp only
    split_ifs
    · exact h1
    · exact tradeDecision_nodup cfg now _ sig price h1
    · exact h1

/-- C2: at every reachable state of the trading loop the positions dict has
duplicate-free keys (at most one open position per symbol), and a BUY signal
arriving while a position is already open for the configured symbol leaves
the state — balance and the existing position included — unchanged. -/
theorem c2_single_position (cfg : BotConfig) (st : BotState) (h : Reachable cfg st) :
    (st.positions.map Prod.fst).Nodup ∧
    (∀ (now : ℕ) (sig : TradeSignal) (price : ℚ) (pos : PositionRec),
      sig.decision = "BUY" → dictLookup st.positions cfg.symbol = some pos →
      tradeDecision cfg now st sig price = st) := by
  constructor
  · induction h with
    | init => simp [initState]
    | step h now market ih => exact run_trading_cycle_nodup _ _ _ _ ih
  · intro now sig price pos hbuy hlook
    unfold tradeDecision
    rw [hbuy]
    by_cases hconf : sig.confidence ≥ cfg.min_confidence
    · rw [if_pos ⟨rfl, hconf⟩, if_neg (by simp [hlook])]
    · rw [if_neg (fun hc => hconf hc.2), if_neg (by simp)]

/-- The configuration the trading bot defaults to (initial balance 10000,
2% position size, 2%/3% stops, min confidence 0.65, 5 positions max). -/
def c2Config : BotConfig := ⟨10000, 10, 2, 2, 3, 13/20, 5, "BTCUSDT"⟩

/-- A confident BUY signal. -/
def c2BuySignal : TradeSignal :=
  ⟨"BUY", 9/10, [], [], "PROVEN_PROFESSIONAL", ⟨0, 0, 0, 0, 0⟩, none, none⟩

/-- The bot state after one cycle that opened a BTCUSDT position at 100. -/
def c2State1 : BotState :=
  run_trading_cycle c2Config 0 (some (100, c2BuySignal)) (initState c2Config)

/-- C2 (witness): after a cycle that opened a position, a second confident
BUY signal leaves the state (balance and position) unchanged, and the
reachable state has duplicate-free position keys. -/
theorem c2_single_position_witness :
    c2BuySignal.decision = "BUY" ∧
    dictLookup c2State1.positions "BTCUSDT" = some ⟨2, 100, 98, 103, 0, 9/10⟩ ∧
    tradeDecision c2Config 7 c2State1 c2BuySignal 100 = c2State1 ∧
    (c2State1.positions.map Prod.fst).Nodup := by
  have hstep : Reachable c2Config c2State1 :=
    Reachable.step Reachable.init 0 (some (100, c2BuySignal))
  have h := c2_single_position c2Config c2State1 hstep
  have hstate : c2State1 = ⟨9800, [("BTCUSDT", ⟨2, 100, 98, 103, 0, 9/10⟩)],
      ⟨10, some 10000, 10000, false, none, 0⟩, 1, 0, 0⟩ := by
    norm_num [c2State1, run_trading_cycle, check_positions, initState, start_day,
      check_can_trade, tradeDecision, open_position, dictLookup, dictInsert,
      c2Config, c2BuySignal]
  have hlook : dictLookup c2State1.positions "BTCUSDT" =
      some ⟨2, 100, 98, 103, 0, 9/10⟩ := by
    rw [hstate]
    simp [dictLookup]
  exact ⟨rfl, hlook, h.2 7 c2BuySignal 100 ⟨2, 100, 98, 103, 0, 9/10⟩ rfl hlook, h.1⟩

end BotTrade
